import Mathlib

/-!
Verification of the `bevy_paths` path-template validation and resolution layer.

The Rust source is shallowly embedded: Rust `String`/`str` values become
`List Char`, `std::path::Path` operations (component decomposition, `join`,
`is_absolute`) are modelled for the Unix convention the repository's own
tests use (`cfg(unix)`), and fallible functions return `Except`.

Embedded functions (names follow the source):
- `validate_structural_path` (crates `bevy_paths_validation` and `bevy_paths`),
- `validate_and_normalize` and `register_template` (root crate `PathRegistryPlugin`),
- `validate_component`, `normalize_component` (both validation modules),
- `PathRegistry.project_root`, `PathRegistry.get`, `PathRegistry.resolve`
  (root crate), `resolve_template_reflection` (crate `bevy_paths`),
- the override-selection step of `determine_base_path`.
-/

namespace BevyPaths

/-- Rust strings are embedded as lists of Unicode scalar values. -/
abbrev Str := List Char

deriving instance DecidableEq for Except

/-- Error enum from `error.rs` / `bevy_paths_validation` (the two crates declare
identical enums, `PathRegistrationError` and `PathValidationError`). The
`io::Error` payloads of the base-path variants are dropped: no claim inspects
them. -/
inductive PathValidationError
  | emptyPath
  | tildeNotAllowed
  | absolutePathNotAllowed
  | relativeNavigationNotAllowed
  | invalidComponent (name : Str)
  | basePathNotADirectory (path : Str)
  | basePathCanonicalizationFailed (path : Str)
  | basePathIsRoot (path : Str)
  | createDirFailed (path : Str)
deriving DecidableEq, Repr

/-- Alias: the root crate calls the same enum `PathRegistrationError`. -/
abbrev PathRegistrationError := PathValidationError

/-- The Unicode `White_Space` code points, which Rust's `str::trim`
(`char::is_whitespace`) strips from both ends. -/
def rustWhitespaceChars : List Char :=
  [Char.ofNat 0x9, Char.ofNat 0xA, Char.ofNat 0xB, Char.ofNat 0xC,
   Char.ofNat 0xD, ' ', Char.ofNat 0x85, Char.ofNat 0xA0, Char.ofNat 0x1680,
   Char.ofNat 0x2000, Char.ofNat 0x2001, Char.ofNat 0x2002, Char.ofNat 0x2003,
   Char.ofNat 0x2004, Char.ofNat 0x2005, Char.ofNat 0x2006, Char.ofNat 0x2007,
   Char.ofNat 0x2008, Char.ofNat 0x2009, Char.ofNat 0x200A, Char.ofNat 0x2028,
   Char.ofNat 0x2029, Char.ofNat 0x202F, Char.ofNat 0x205F, Char.ofNat 0x3000]

/-- Rust `char::is_whitespace`. -/
def rustIsWhitespace (c : Char) : Bool := rustWhitespaceChars.contains c

/-- Rust `str::trim`: drop whitespace from both ends. -/
def rustTrim (s : Str) : Str :=
  ((s.dropWhile rustIsWhitespace).reverse.dropWhile rustIsWhitespace).reverse

/-- Split a string at every `/` (keeping empty pieces). -/
def splitSlash : Str → List Str
  | [] => [[]]
  | c :: rest =>
    if c = '/' then [] :: splitSlash rest
    else
      match splitSlash rest with
      | [] => [[c]]
      | g :: gs => (c :: g) :: gs

/-- The non-empty textual segments of a path (what `std::path` iterates over
after discarding duplicate separators). -/
def pathChunks (s : Str) : List Str := (splitSlash s).filter (fun c => c ≠ [])

/-- `std::path::Component`, restricted to the Unix variants (no Windows
prefixes). -/
inductive RustComponent
  | rootDir
  | curDir
  | parentDir
  | normal (s : Str)
deriving DecidableEq, Repr

/-- Rust `Path::is_absolute` under the Unix convention (`has_root`). -/
def isAbsolute (s : Str) : Bool := s.head? = some '/'

/-- How `std::path` classifies one textual segment. -/
def chunkToComponent (c : Str) : RustComponent :=
  if c = ['.', '.'] then .parentDir
  else if c = ['.'] then .curDir
  else .normal c

/-- Classification of a chunk list: the first chunk keeps a `.` (as
`CurDir`, unless the path has a root), later `.` chunks are dropped, `..`
chunks are always kept. -/
def componentsOfChunks (abs : Bool) : List Str → List RustComponent
  | [] => []
  | c :: rest =>
    if c = ['.'] then
      (if abs then [] else [.curDir])
        ++ (rest.filter (fun x => x ≠ ['.'])).map chunkToComponent
    else chunkToComponent c :: (rest.filter (fun x => x ≠ ['.'])).map chunkToComponent

/-- Rust `Path::components()` on Unix: a leading `/` yields `RootDir`;
`.` segments are normalized away except a leading `.` of a relative path;
`..` segments are kept as `ParentDir`. -/
def rustComponents (s : Str) : List RustComponent :=
  (if isAbsolute s then [.rootDir] else []) ++ componentsOfChunks (isAbsolute s) (pathChunks s)

/-- Rust `PathBuf::push` / `Path::join` on Unix: an absolute argument replaces
the path; otherwise a separator is inserted unless one is already trailing. -/
def pathJoin (base p : Str) : Str :=
  if isAbsolute p then p
  else if base = [] then p
  else if base.getLast? = some '/' then base ++ p
  else base ++ '/' :: p

/-- Modelled from the `unicode-normalization` crate (an external dependency,
not part of this repository): Unicode NFC restricted to the characters this
development exercises. NFC is the identity on strings free of combining marks
(in particular on ASCII), and canonically composes `e` followed by U+0301
COMBINING ACUTE ACCENT into the precomposed `é` (U+00E9). Other composition
pairs do not occur in any input considered here and are left unchanged. -/
def nfc : Str → Str
  | [] => []
  | [c] => [c]
  | c1 :: c2 :: rest =>
    if c1 = 'e' ∧ c2 = Char.ofNat 0x301 then 'é' :: nfc rest
    else c1 :: nfc (c2 :: rest)

/-- Source `normalize_component`: `s.nfc().collect()`. -/
def normalize_component (s : Str) : Str := nfc s

/-- Modelled from Rust `str::to_uppercase` restricted to the characters this
development exercises: ASCII letters map `a-z` to `A-Z`; every other character
appearing in the inputs considered here (digits, punctuation, `é`) is either
unchanged by Unicode uppercasing or never compared against the ASCII reserved
names, so it is left unchanged. -/
def rustToUpperChar (c : Char) : Char :=
  if 'a' ≤ c ∧ c ≤ 'z' then Char.ofNat (c.toNat - 32) else c

/-- Rust `str::to_uppercase`, character-wise on this repertoire. -/
def rustToUpper (s : Str) : Str := s.map rustToUpperChar

/-- The characters `validate_component` rejects. -/
def invalidChars : List Char := ['<', '>', '"', ':', '|', '?', '*']

/-- The Windows reserved device names `validate_component` rejects. -/
def reservedNames : List Str :=
  ["CON".data, "PRN".data, "AUX".data, "NUL".data,
   "COM1".data, "COM2".data, "COM3".data, "COM4".data, "COM5".data,
   "COM6".data, "COM7".data, "COM8".data, "COM9".data,
   "LPT1".data, "LPT2".data, "LPT3".data, "LPT4".data, "LPT5".data,
   "LPT6".data, "LPT7".data, "LPT8".data, "LPT9".data]

/-- Source `validate_component` (identical in all three crates): reject
invalid characters, then case-insensitive reserved names, then a trailing
space or dot. -/
def validate_component (name : Str) : Except PathValidationError Unit :=
  if ∃ c ∈ name, c ∈ invalidChars then
    .error (.invalidComponent name)
  else if rustToUpper name ∈ reservedNames then
    .error (.invalidComponent name)
  else if name.getLast? = some ' ' ∨ name.getLast? = some '.' then
    .error (.invalidComponent name)
  else
    .ok ()

/-- The second loop of `validate_structural_path`: validate the NFC form of
every `Normal` component that does not contain `{`, first error wins. -/
def checkComponents : List RustComponent → Except PathValidationError Unit
  | [] => .ok ()
  | .normal os :: rest =>
    if '{' ∈ os then checkComponents rest
    else
      match validate_component (normalize_component os) with
      | .error e => .error e
      | .ok _ => checkComponents rest
  | .rootDir :: rest => checkComponents rest
  | .curDir :: rest => checkComponents rest
  | .parentDir :: rest => checkComponents rest

/-- Source `validate_structural_path` (crates `bevy_paths_validation` and
`bevy_paths`): trim, reject empty / leading `~` / absolute / `.`-`..`
components, then validate non-placeholder components; on success it returns
`PathBuf::from(s)`, whose textual form is the trimmed input itself. -/
def validate_structural_path (relative_path : Str) : Except PathValidationError Str :=
  if rustTrim relative_path = [] then .error .emptyPath
  else if (rustTrim relative_path).head? = some '~' then .error .tildeNotAllowed
  else if isAbsolute (rustTrim relative_path) then .error .absolutePathNotAllowed
  else if ∃ c ∈ rustComponents (rustTrim relative_path), c = RustComponent.curDir ∨ c = RustComponent.parentDir then
    .error .relativeNavigationNotAllowed
  else
    match checkComponents (rustComponents (rustTrim relative_path)) with
    | .error e => .error e
    | .ok _ => .ok (rustTrim relative_path)

/-- The rebuild loop of `validate_and_normalize`: push the validated NFC form
of every `Normal` component onto an accumulating `PathBuf`. -/
def buildNormalized : List RustComponent → Str → Except PathValidationError Str
  | [], acc => .ok acc
  | .normal os :: rest, acc =>
    match validate_component (normalize_component os) with
    | .error e => .error e
    | .ok _ => buildNormalized rest (pathJoin acc (normalize_component os))
  | _ :: rest, acc => buildNormalized rest acc

/-- Source `PathRegistryPlugin::validate_and_normalize` (root crate): same
structural checks, then every `Normal` component (no `{` exemption) is
NFC-normalized, validated and pushed onto a fresh `PathBuf`. -/
def validate_and_normalize (relative_path : Str) : Except PathRegistrationError Str :=
  if rustTrim relative_path = [] then .error .emptyPath
  else if (rustTrim relative_path).head? = some '~' then .error .tildeNotAllowed
  else if isAbsolute (rustTrim relative_path) then .error .absolutePathNotAllowed
  else if ∃ c ∈ rustComponents (rustTrim relative_path), c = RustComponent.curDir ∨ c = RustComponent.parentDir then
    .error .relativeNavigationNotAllowed
  else buildNormalized (rustComponents (rustTrim relative_path)) []

/-- Rust `str::contains` for a pattern string: some suffix starts with it. -/
def containsSubstring (pat : Str) : Str → Bool
  | [] => pat.isPrefixOf []
  | c :: rest => pat.isPrefixOf (c :: rest) || containsSubstring pat rest

/-- Source `PathRegistryPlugin::register_template` (root crate), the
validation part: trim, reject empty, reject absolute, reject any occurrence
of the substring `..`; on success the trimmed template string is stored. -/
def register_template (template : Str) : Except PathRegistrationError Str :=
  if rustTrim template = [] then .error .emptyPath
  else if isAbsolute (rustTrim template) then .error .absolutePathNotAllowed
  else if containsSubstring ['.', '.'] (rustTrim template) then .error .relativeNavigationNotAllowed
  else .ok (rustTrim template)

/-- Helper for `replaceAll`: with a positive skip count, discard characters
still covered by the previous match; at zero, match the pattern at the
current position (Rust's `match_indices` scans left to right and matches do
not overlap). -/
def replaceAllAux (pat val : Str) : Nat → Str → Str
  | _ + 1, [] => []
  | k + 1, _ :: rest => replaceAllAux pat val k rest
  | 0, [] => []
  | 0, c :: rest =>
    if pat.isPrefixOf (c :: rest) then
      val ++ replaceAllAux pat val (pat.length - 1) rest
    else c :: replaceAllAux pat val 0 rest

/-- Rust `str::replace`: every non-overlapping left-to-right occurrence of
`pat` is replaced by `val` (an empty pattern is never produced by the
callers, whose patterns have the shape `{name}`). -/
def replaceAll (s pat val : Str) : Str :=
  if pat = [] then s else replaceAllAux pat val 0 s

/-- Placeholder text for a field name: an opening brace, the name, a closing
brace (the `format!` call in the source). -/
def placeholderOf (name : Str) : Str := '{' :: (name ++ ['}'])

/-- Source `resolve_template_reflection` (crate `bevy_paths`): fold over the
record's fields in declaration order, replacing every occurrence of each
field's placeholder with its stringified value. The reflection facility and
`convert_reflect_to_string` are the external field-value capability; fields
arrive here already stringified. -/
def resolve_template_reflection (template : Str) (fields : List (Str × Str)) : Str :=
  fields.foldl (fun result f => replaceAll result (placeholderOf f.1) f.2) template

/-- Source `PathRegistry` (root crate). `TypeId` keys are embedded as `Nat`;
the two `HashMap`s become association lists. -/
structure PathRegistry where
  studio : Str
  project_id : Str
  app_id : Str
  base_path : Str
  paths : List (Nat × Str)
  templates : List (Nat × Str)

/-- `HashMap::get` on the association-list embedding. -/
def lookupId (m : List (Nat × Str)) (k : Nat) : Option Str :=
  (m.find? (fun kv => kv.1 == k)).map (fun kv => kv.2)

/-- Source `PathRegistry::project_root`:
`base_path.join(studio).join(project_id)`. -/
def PathRegistry.project_root (r : PathRegistry) : Str :=
  pathJoin (pathJoin r.base_path r.studio) r.project_id

/-- Source `PathRegistry::get_relative`. -/
def PathRegistry.get_relative (r : PathRegistry) (t : Nat) : Option Str :=
  lookupId r.paths t

/-- Source `PathRegistry::get`: project root joined with the registered
relative path, `None` when `t` is unregistered. -/
def PathRegistry.get (r : PathRegistry) (t : Nat) : Option Str :=
  (r.get_relative t).map (fun rel => pathJoin r.project_root rel)

/-- Source `PathRegistry::resolve` (root crate): look up the template, build
the placeholder text for `key`, replace every occurrence with `value`, and
join the result onto the project root. No re-validation is performed on the
substituted string. -/
def PathRegistry.resolve (r : PathRegistry) (t : Nat) (key value : Str) : Option Str :=
  (lookupId r.templates t).map (fun template =>
    let placeholder := placeholderOf key
    let resolved_rel := replaceAll template placeholder value
    pathJoin r.project_root resolved_rel)

/-- Source `PathRegistry::resolve` (crate `bevy_paths`, typed variant):
substitute all reflected fields, then join onto the project root. -/
def PathRegistry.resolveTyped (r : PathRegistry) (template : Str)
    (fields : List (Str × Str)) : Str :=
  pathJoin r.project_root (resolve_template_reflection template fields)

/-- The override-selection step of `determine_base_path` (both crates): an
absolute override is used verbatim, a relative one is joined onto the
executable's directory, no override selects the executable's directory. The
surrounding steps (locating the executable, `create_dir_all`,
`canonicalize`) are process I/O outside this pure selection. -/
def determine_base_path_selection (exe_dir : Str) (override_path : Option Str) : Str :=
  match override_path with
  | some p => if isAbsolute p then p else pathJoin exe_dir p
  | none => exe_dir

/-- Association-list lookup misses every key outside the list. -/
theorem lookupId_eq_none (m : List (Nat × Str)) (k : Nat)
    (h : ∀ kv ∈ m, kv.1 ≠ k) : lookupId m k = none := by
  unfold lookupId
  rw [List.find?_eq_none.mpr]
  · rfl
  · intro kv hkv
    simpa using h kv hkv

/-- C6: for every registry state, `project_root()` equals
`base_path.join(studio).join(project_id)`, and it depends on nothing but
those three fields: two registries agreeing on them (whatever their
`app_id`, `paths` and `templates`) have the same project root. It is total:
no failure mode exists in its type. -/
theorem C6_project_root (r1 r2 : PathRegistry)
    (hb : r1.base_path = r2.base_path) (hs : r1.studio = r2.studio)
    (hp : r1.project_id = r2.project_id) :
    r1.project_root = pathJoin (pathJoin r1.base_path r1.studio) r1.project_id
    ∧ r1.project_root = r2.project_root := by
  constructor
  · rfl
  · unfold PathRegistry.project_root
    rw [hb, hs, hp]

/-- Witness for C6 at the registry of the repository's
`test_project_root_construction`. -/
theorem C6_project_root_witness :
    (PathRegistry.mk "MyStudio".data "MyGame".data "Client".data "/tmp/base".data [] []).project_root
      = pathJoin (pathJoin "/tmp/base".data "MyStudio".data) "MyGame".data
    ∧ (PathRegistry.mk "MyStudio".data "MyGame".data "Client".data "/tmp/base".data [] []).project_root
      = (PathRegistry.mk "MyStudio".data "MyGame".data "Other".data "/tmp/base".data [(0, "x".data)] []).project_root :=
  C6_project_root
    (PathRegistry.mk "MyStudio".data "MyGame".data "Client".data "/tmp/base".data [] [])
    (PathRegistry.mk "MyStudio".data "MyGame".data "Other".data "/tmp/base".data [(0, "x".data)] [])
    rfl rfl rfl

/-- C7: for a kind never registered (its key is in neither map), both
`get` and `resolve` return `None`, for every key/value argument; both are
total functions, so no panic is possible. -/
theorem C7_unregistered_returns_none (r : PathRegistry) (t : Nat) (key value : Str)
    (hp : ∀ kv ∈ r.paths, kv.1 ≠ t) (ht : ∀ kv ∈ r.templates, kv.1 ≠ t) :
    r.get t = none ∧ r.resolve t key value = none := by
  constructor
  · unfold PathRegistry.get PathRegistry.get_relative
    rw [lookupId_eq_none r.paths t hp]
    rfl
  · unfold PathRegistry.resolve
    rw [lookupId_eq_none r.templates t ht]
    rfl

/-- Witness for C7: a registry holding only keys 1 and 2, queried at key 0. -/
theorem C7_unregistered_returns_none_witness :
    (PathRegistry.mk "S".data "P".data "A".data "/base".data
        [(1, "saves".data)] [(2, "levels/{id}.map".data)]).get 0 = none
    ∧ (PathRegistry.mk "S".data "P".data "A".data "/base".data
        [(1, "saves".data)] [(2, "levels/{id}.map".data)]).resolve 0 "id".data "7".data = none :=
  C7_unregistered_returns_none
    (PathRegistry.mk "S".data "P".data "A".data "/base".data
      [(1, "saves".data)] [(2, "levels/{id}.map".data)])
    0 "id".data "7".data (by decide) (by decide)

/-- C9: the pre-canonicalization base directory of `determine_base_path` is
the override verbatim when it is absolute, the override joined onto the
executable's directory when it is relative, and the executable's directory
itself when no override is given. -/
theorem C9_base_path_selection (exe_dir : Str) (ov : Option Str) :
    (ov = none → determine_base_path_selection exe_dir ov = exe_dir)
    ∧ (∀ p, ov = some p → isAbsolute p = true →
        determine_base_path_selection exe_dir ov = p)
    ∧ (∀ p, ov = some p → isAbsolute p = false →
        determine_base_path_selection exe_dir ov = pathJoin exe_dir p) := by
  refine ⟨fun h => ?_, fun p h ha => ?_, fun p h ha => ?_⟩
  · subst h; rfl
  · subst h; simp [determine_base_path_selection, ha]
  · subst h; simp [determine_base_path_selection, ha]

/-- Witness for C9 at concrete override values. -/
theorem C9_base_path_selection_witness :
    determine_base_path_selection "/exe".data none = "/exe".data
    ∧ determine_base_path_selection "/exe".data (some "/abs".data) = "/abs".data
    ∧ determine_base_path_selection "/exe".data (some "rel".data)
        = pathJoin "/exe".data "rel".data :=
  ⟨(C9_base_path_selection "/exe".data none).1 rfl,
   (C9_base_path_selection "/exe".data (some "/abs".data)).2.1 "/abs".data rfl (by decide),
   (C9_base_path_selection "/exe".data (some "rel".data)).2.2 "rel".data rfl (by decide)⟩

/-- C2 fails on the code: `resolve` performs no re-validation after
substitution. Resolving the registered template `saves/(slot)/data.json`
with the field value `../../etc` succeeds and yields a path in which the
injected `/` separators and `..` traversal components survive verbatim. -/
theorem C2_counterexample :
    (PathRegistry.mk "S".data "P".data "A".data "/base".data []
        [(0, "saves/{slot}/data.json".data)]).resolve 0 "slot".data "../../etc".data
      = some "/base/S/P/saves/../../etc/data.json".data
    ∧ rustComponents "saves/../../etc/data.json".data
      = [.normal "saves".data, .parentDir, .parentDir,
         .normal "etc".data, .normal "data.json".data] := by
  exact ⟨by decide, by decide⟩

/-- C2 as amended: the code implements policy (a), not (b): whenever the
kind is registered, `resolve` returns the raw textual substitution joined
directly onto the project root, with no validation of the substituted
string and hence no failure path for unsafe field values. -/
theorem C2_no_revalidation (r : PathRegistry) (t : Nat) (key value template : Str)
    (h : lookupId r.templates t = some template) :
    r.resolve t key value
      = some (pathJoin r.project_root (replaceAll template (placeholderOf key) value)) := by
  unfold PathRegistry.resolve
  rw [h]
  rfl

/-- Witness for the amended C2: a traversal-laden value flows through. -/
theorem C2_no_revalidation_witness :
    (PathRegistry.mk "S".data "P".data "A".data "/base".data []
        [(0, "saves/{slot}/data.json".data)]).resolve 0 "slot".data "../x".data
      = some (pathJoin
          (PathRegistry.mk "S".data "P".data "A".data "/base".data []
            [(0, "saves/{slot}/data.json".data)]).project_root
          (replaceAll "saves/{slot}/data.json".data (placeholderOf "slot".data) "../x".data)) :=
  C2_no_revalidation
    (PathRegistry.mk "S".data "P".data "A".data "/base".data []
      [(0, "saves/{slot}/data.json".data)])
    0 "slot".data "../x".data "saves/{slot}/data.json".data (by decide)

/-- C10 fails as stated: `register_template` checks absoluteness before the
`..` substring, so the absolute template `/a../b` contains `..` yet is
rejected with `AbsolutePathNotAllowed`, not `RelativeNavigationNotAllowed`. -/
theorem C10_counterexample :
    containsSubstring ['.', '.'] (rustTrim "/a../b".data) = true
    ∧ register_template "/a../b".data = .error .absolutePathNotAllowed
    ∧ register_template "/a../b".data ≠ .error .relativeNavigationNotAllowed := by
  exact ⟨by decide, by decide, by decide⟩

/-- C10 as amended: for every template whose trimmed form is non-empty and
not absolute, an occurrence of the substring `..` anywhere (even inside a
single component not equal to `..`, such as `files/a..b.txt`) makes
`register_template` return `RelativeNavigationNotAllowed`; consequently some
strings accepted by `validate_structural_path` are rejected by
`register_template`; and `register_template` performs no tilde check and no
`.`-component check, accepting `~tilde/x` and `./x`, both of which
`validate_structural_path` rejects. -/
theorem C10_register_template :
    (∀ s, rustTrim s ≠ [] → isAbsolute (rustTrim s) = false →
        containsSubstring ['.', '.'] (rustTrim s) = true →
        register_template s = .error .relativeNavigationNotAllowed)
    ∧ register_template "files/a..b.txt".data = .error .relativeNavigationNotAllowed
    ∧ validate_structural_path "files/a..b.txt".data = .ok "files/a..b.txt".data
    ∧ register_template "~tilde/x".data = .ok "~tilde/x".data
    ∧ validate_structural_path "~tilde/x".data = .error .tildeNotAllowed
    ∧ register_template "./x".data = .ok "./x".data
    ∧ validate_structural_path "./x".data = .error .relativeNavigationNotAllowed := by
  refine ⟨fun s h1 h2 h3 => ?_, by decide, by decide, by decide, by decide, by decide, by decide⟩
  unfold register_template
  simp [h1, h2, h3]

/-- Witness for the amended C10 at a `..` buried inside a component. -/
theorem C10_register_template_witness :
    register_template "a/b..c".data = .error .relativeNavigationNotAllowed :=
  C10_register_template.1 "a/b..c".data (by decide) (by decide) (by decide)

/-- Uppercasing fixes every character of the rejected set. -/
theorem rustToUpperChar_invalid_fixed : ∀ c ∈ invalidChars, rustToUpperChar c = c := by
  decide

/-- No reserved device name contains a rejected character. -/
theorem reserved_no_invalid :
    ∀ L ∈ reservedNames, ∀ c ∈ invalidChars, c ∉ L := by
  decide

/-- C8: reserved-name rejection in `validate_component` is case-insensitive
and exact-match only: every component whose uppercase form is one of the 22
reserved device names is rejected as `InvalidComponent` (in particular
`CON`, `con`, `Con`), while the strict superstring `CONSOLE` passes. -/
theorem C8_reserved_names :
    (∀ name, rustToUpper name ∈ reservedNames →
        validate_component name = .error (.invalidComponent name))
    ∧ validate_component "CON".data = .error (.invalidComponent "CON".data)
    ∧ validate_component "con".data = .error (.invalidComponent "con".data)
    ∧ validate_component "Con".data = .error (.invalidComponent "Con".data)
    ∧ validate_component "CONSOLE".data = .ok () := by
  refine ⟨fun name h => ?_, by decide, by decide, by decide, by decide⟩
  have hno : ¬ ∃ c ∈ name, c ∈ invalidChars := by
    rintro ⟨c, hc, hcc⟩
    have hmem : rustToUpperChar c ∈ rustToUpper name := List.mem_map_of_mem _ hc
    rw [rustToUpperChar_invalid_fixed c hcc] at hmem
    exact reserved_no_invalid (rustToUpper name) h c hcc hmem
  unfold validate_component
  rw [if_neg hno, if_pos h]

/-- Witness for C8 at the lower-case reserved name of the repository's own
tests. -/
theorem C8_reserved_names_witness :
    validate_component "lpt1".data = .error (.invalidComponent "lpt1".data) :=
  C8_reserved_names.1 "lpt1".data (by decide)

/-- Skipping exactly the characters of `xs` lands at the start of `ys`. -/
theorem replaceAllAux_skip (pat val xs ys : Str) :
    replaceAllAux pat val xs.length (xs ++ ys) = replaceAllAux pat val 0 ys := by
  induction xs with
  | nil => rfl
  | cons c xs ih => simpa [replaceAllAux] using ih

/-- Scanning for a pattern that starts with an opening brace walks over any
brace-free segment unchanged. -/
theorem replaceAllAux_append_no_lbrace (p val xs rest : Str) (hxs : '{' ∉ xs) :
    replaceAllAux ('{' :: p) val 0 (xs ++ rest)
      = xs ++ replaceAllAux ('{' :: p) val 0 rest := by
  induction xs with
  | nil => rfl
  | cons c xs ih =>
    have hc : ('{' : Char) ≠ c := fun h => hxs (h ▸ List.mem_cons_self c xs)
    have hpre : ('{' :: p).isPrefixOf (c :: (xs ++ rest)) = false := by
      simp [List.isPrefixOf, hc]
    have ih2 := ih (fun h => hxs (List.mem_cons_of_mem _ h))
    simp [replaceAllAux, hpre, ih2]

/-- A brace-free string is left unchanged by the scan. -/
theorem replaceAllAux_no_lbrace (p val xs : Str) (hxs : '{' ∉ xs) :
    replaceAllAux ('{' :: p) val 0 xs = xs := by
  have := replaceAllAux_append_no_lbrace p val xs [] hxs
  simpa [replaceAllAux] using this

/-- At an occurrence of the pattern, the scan emits the replacement and
resumes right after the occurrence. -/
theorem replaceAllAux_match (q : Char) (qt val rest : Str) :
    replaceAllAux (q :: qt) val 0 ((q :: qt) ++ rest)
      = val ++ replaceAllAux (q :: qt) val 0 rest := by
  have hpre : (q :: qt).isPrefixOf ((q :: qt) ++ rest) = true := by
    rw [List.isPrefixOf_iff_prefix]
    exact List.prefix_append (q :: qt) rest
  have hskip := replaceAllAux_skip (q :: qt) val qt rest
  simp only [List.cons_append] at hpre ⊢
  simp [replaceAllAux, hpre, hskip]

/-- C5: substitution replaces every occurrence of the placeholder, not just
the first: for brace-free surroundings `a`, `b`, `c` and value `v`, the
template `a(name)b(name)c` (with placeholder markers) resolves to
`a v b v c`; the spec's example template `backup/(date)/(date)_save.json`
with `date = 2024-01-01` yields
`backup/2024-01-01/2024-01-01_save.json` (also through the registry,
yielding the joined absolute path); and a placeholder whose name is not
among the declared fields is left untouched in the output. -/
theorem C5_substitution :
    (∀ n v a b c : Str, '{' ∉ a → '{' ∉ b → '{' ∉ c →
        resolve_template_reflection
            (a ++ placeholderOf n ++ b ++ placeholderOf n ++ c) [(n, v)]
          = a ++ v ++ b ++ v ++ c)
    ∧ resolve_template_reflection "backup/{date}/{date}_save.json".data
        [("date".data, "2024-01-01".data)]
      = "backup/2024-01-01/2024-01-01_save.json".data
    ∧ resolve_template_reflection "a/{id}/{other}.txt".data [("id".data, "7".data)]
      = "a/7/{other}.txt".data
    ∧ (PathRegistry.mk "S".data "P".data "A".data "/base".data []
        [(0, "backup/{date}/{date}_save.json".data)]).resolve 0 "date".data "2024-01-01".data
      = some "/base/S/P/backup/2024-01-01/2024-01-01_save.json".data := by
  refine ⟨fun n v a b c ha hb hc => ?_, by decide, by decide, by decide⟩
  have hne : placeholderOf n ≠ [] := by simp [placeholderOf]
  show replaceAll (a ++ placeholderOf n ++ b ++ placeholderOf n ++ c)
      (placeholderOf n) v = a ++ v ++ b ++ v ++ c
  unfold replaceAll
  rw [if_neg hne]
  simp only [placeholderOf, List.append_assoc]
  rw [replaceAllAux_append_no_lbrace _ _ _ _ ha]
  rw [replaceAllAux_match]
  rw [replaceAllAux_append_no_lbrace _ _ _ _ hb]
  rw [replaceAllAux_match]
  rw [replaceAllAux_no_lbrace _ _ _ hc]

/-- Witness for C5 applying the universal part to the spec's example split
into its brace-free pieces. -/
theorem C5_substitution_witness :
    resolve_template_reflection
        ("backup/".data ++ placeholderOf "date".data ++ "/".data
          ++ placeholderOf "date".data ++ "_save.json".data)
        [("date".data, "2024-01-01".data)]
      = "backup/".data ++ "2024-01-01".data ++ "/".data
          ++ "2024-01-01".data ++ "_save.json".data :=
  C5_substitution.1 "date".data "2024-01-01".data "backup/".data "/".data
    "_save.json".data (by decide) (by decide) (by decide)

/-- The only error `validate_component` can produce is `InvalidComponent` of
its argument. -/
theorem validate_component_error_invalid (name : Str) (e : PathValidationError)
    (h : validate_component name = .error e) : e = .invalidComponent name := by
  unfold validate_component at h
  split_ifs at h <;> simp_all

/-- The only errors of the per-component loop are `InvalidComponent`. -/
theorem checkComponents_error_invalid (l : List RustComponent) (e : PathValidationError)
    (h : checkComponents l = .error e) : ∃ n, e = .invalidComponent n := by
  induction l with
  | nil => exact absurd h (by simp [checkComponents])
  | cons c rest ih =>
    cases c with
    | normal os =>
      by_cases hb : '{' ∈ os
      · rw [checkComponents, if_pos hb] at h
        exact ih h
      · rw [checkComponents, if_neg hb] at h
        cases hv : validate_component (normalize_component os) with
        | error e2 =>
          rw [hv] at h
          have h2 : (Except.error e2 : Except PathValidationError Unit) = .error e := h
          injection h2 with h3
          exact ⟨normalize_component os,
            h3 ▸ validate_component_error_invalid (normalize_component os) e2 hv⟩
        | ok u =>
          rw [hv] at h
          exact ih h
    | rootDir =>
      rw [checkComponents] at h
      exact ih h
    | curDir =>
      rw [checkComponents] at h
      exact ih h
    | parentDir =>
      rw [checkComponents] at h
      exact ih h

/-- A `..` chunk always survives classification as `ParentDir`. -/
theorem parentDir_mem_chunks (abs : Bool) (l : List Str) (h : ['.', '.'] ∈ l) :
    RustComponent.parentDir ∈ componentsOfChunks abs l := by
  cases l with
  | nil => exact absurd h (List.not_mem_nil _)
  | cons c rest =>
    rcases List.mem_cons.mp h with h1 | h2
    · subst h1
      rw [componentsOfChunks, if_neg (by decide : ¬ (['.', '.'] : Str) = ['.'])]
      rw [show chunkToComponent ['.', '.'] = .parentDir from by decide]
      exact List.mem_cons_self _ _
    · have hmem : RustComponent.parentDir
          ∈ (rest.filter (fun x => x ≠ ['.'])).map chunkToComponent :=
        List.mem_map.mpr ⟨['.', '.'], List.mem_filter.mpr ⟨h2, by decide⟩, by decide⟩
      rw [componentsOfChunks]
      by_cases hcd : c = ['.']
      · rw [if_pos hcd]
        exact List.mem_append_right _ hmem
      · rw [if_neg hcd]
        exact List.mem_cons_of_mem _ hmem

/-- A `..` textual segment always survives decomposition as `ParentDir`. -/
theorem parentDir_mem_components (t : Str) (h : ['.', '.'] ∈ pathChunks t) :
    RustComponent.parentDir ∈ rustComponents t := by
  unfold rustComponents
  exact List.mem_append_right _ (parentDir_mem_chunks _ _ h)

/-- A leading `.` segment of a relative path survives as `CurDir`. -/
theorem curDir_mem_components (t : Str) (h : (pathChunks t).head? = some ['.'])
    (habs : isAbsolute t = false) :
    RustComponent.curDir ∈ rustComponents t := by
  unfold rustComponents
  rw [habs]
  cases hc : pathChunks t with
  | nil => rw [hc] at h; cases h
  | cons c rest =>
    rw [hc] at h
    have hcd : c = ['.'] := by simpa using h
    subst hcd
    rw [componentsOfChunks, if_pos rfl]
    simp

/-- C1 as amended: every template passing the earlier empty/tilde/absolute
checks is rejected with `RelativeNavigationNotAllowed` — by validation
(`validate_structural_path`) and registration (`validate_and_normalize`)
alike — when its trimmed form has a `..` textual segment anywhere or a
leading `.` segment (in particular `saves/../hack`, `../parent` and `./x`);
a `.` segment in a non-leading position, however, is dropped by Rust path
decomposition and does not cause rejection. -/
theorem C1_navigation_components :
    (∀ s, rustTrim s ≠ [] → (rustTrim s).head? ≠ some '~' →
        isAbsolute (rustTrim s) = false →
        (['.', '.'] ∈ pathChunks (rustTrim s)
          ∨ (pathChunks (rustTrim s)).head? = some ['.']) →
        validate_structural_path s = .error .relativeNavigationNotAllowed
          ∧ validate_and_normalize s = .error .relativeNavigationNotAllowed)
    ∧ validate_structural_path "saves/../hack".data = .error .relativeNavigationNotAllowed
    ∧ validate_structural_path "../parent".data = .error .relativeNavigationNotAllowed
    ∧ validate_structural_path "./x".data = .error .relativeNavigationNotAllowed := by
  refine ⟨fun s h1 h2 h3 h4 => ?_, by decide, by decide, by decide⟩
  have hnav : ∃ c ∈ rustComponents (rustTrim s),
      c = RustComponent.curDir ∨ c = RustComponent.parentDir := by
    rcases h4 with h4 | h4
    · exact ⟨.parentDir, parentDir_mem_components _ h4, Or.inr rfl⟩
    · exact ⟨.curDir, curDir_mem_components _ h4 h3, Or.inl rfl⟩
  constructor
  · unfold validate_structural_path
    rw [if_neg h1, if_neg h2, if_neg (by simp [h3]), if_pos hnav]
  · unfold validate_and_normalize
    rw [if_neg h1, if_neg h2, if_neg (by simp [h3]), if_pos hnav]

/-- Witness for the amended C1 at the spec's own example. -/
theorem C1_navigation_components_witness :
    validate_structural_path "saves/../hack".data = .error .relativeNavigationNotAllowed
    ∧ validate_and_normalize "saves/../hack".data = .error .relativeNavigationNotAllowed :=
  C1_navigation_components.1 "saves/../hack".data (by decide) (by decide) (by decide)
    (Or.inl (by decide))

/-- C1 fails as universally stated: the template `saves/./x` has a textual
component equal to `.` in a non-leading position, yet validation succeeds,
because Rust's `Path::components()` normalizes interior `.` segments away
before the `CurDir` check can see them. -/
theorem C1_counterexample :
    pathChunks (rustTrim "saves/./x".data) = ["saves".data, ".".data, "x".data]
    ∧ validate_structural_path "saves/./x".data = .ok "saves/./x".data
    ∧ validate_structural_path "saves/./x".data ≠ .error .relativeNavigationNotAllowed := by
  exact ⟨by decide, by decide, by decide⟩

/-- C3: the rules of `validate_structural_path` apply in a fixed order with
the first failure winning: `EmptyPath` exactly when the trimmed input is
empty; otherwise `TildeNotAllowed` exactly when it starts with `~`;
otherwise `AbsolutePathNotAllowed` exactly when it is absolute; otherwise
`RelativeNavigationNotAllowed` exactly when a decomposed component is
`CurDir` or `ParentDir`; otherwise the result is success or some
`InvalidComponent` from the per-component checks. -/
theorem C3_rule_order (s : Str) :
    (validate_structural_path s = .error .emptyPath ↔ rustTrim s = [])
    ∧ (validate_structural_path s = .error .tildeNotAllowed ↔
        rustTrim s ≠ [] ∧ (rustTrim s).head? = some '~')
    ∧ (validate_structural_path s = .error .absolutePathNotAllowed ↔
        rustTrim s ≠ [] ∧ (rustTrim s).head? ≠ some '~' ∧ isAbsolute (rustTrim s) = true)
    ∧ (validate_structural_path s = .error .relativeNavigationNotAllowed ↔
        rustTrim s ≠ [] ∧ (rustTrim s).head? ≠ some '~' ∧ isAbsolute (rustTrim s) = false
          ∧ ∃ c ∈ rustComponents (rustTrim s),
              c = RustComponent.curDir ∨ c = RustComponent.parentDir)
    ∧ (rustTrim s ≠ [] → (rustTrim s).head? ≠ some '~' → isAbsolute (rustTrim s) = false →
        (¬ ∃ c ∈ rustComponents (rustTrim s),
            c = RustComponent.curDir ∨ c = RustComponent.parentDir) →
        validate_structural_path s = .ok (rustTrim s)
          ∨ ∃ n, validate_structural_path s = .error (.invalidComponent n)) := by
  by_cases h1 : rustTrim s = []
  · simp [validate_structural_path, h1]
  by_cases h2 : (rustTrim s).head? = some '~'
  · simp [validate_structural_path, h1, h2]
  by_cases h3 : isAbsolute (rustTrim s) = true
  · simp [validate_structural_path, h1, h2, h3]
  by_cases h4 : ∃ c ∈ rustComponents (rustTrim s),
      c = RustComponent.curDir ∨ c = RustComponent.parentDir
  · simp [validate_structural_path, h1, h2, h3, h4]
  · cases hcc : checkComponents (rustComponents (rustTrim s)) with
    | ok u => simp [validate_structural_path, h1, h2, h3, h4, hcc]
    | error e =>
      obtain ⟨n, rfl⟩ := checkComponents_error_invalid _ _ hcc
      simp [validate_structural_path, h1, h2, h3, h4, hcc]

/-- Witness for C3: each of the first four rules firing at a concrete
input, through the characterization itself. -/
theorem C3_rule_order_witness :
    validate_structural_path "   ".data = .error .emptyPath
    ∧ validate_structural_path "~/x".data = .error .tildeNotAllowed
    ∧ validate_structural_path "/abs".data = .error .absolutePathNotAllowed
    ∧ validate_structural_path "a/../b".data = .error .relativeNavigationNotAllowed :=
  ⟨(C3_rule_order "   ".data).1.mpr (by decide),
   (C3_rule_order "~/x".data).2.1.mpr ⟨by decide, by decide⟩,
   (C3_rule_order "/abs".data).2.2.1.mpr ⟨by decide, by decide, by decide⟩,
   (C3_rule_order "a/../b".data).2.2.2.1.mpr
     ⟨by decide, by decide, by decide, ⟨.parentDir, by decide, Or.inr rfl⟩⟩⟩

/-- C4 as amended: for every non-empty relative template without navigation
components, leading tilde or absolute anchoring, whose literal components
pass the component validator, `validate_structural_path` succeeds and the
textual form of the returned path is the trimmed input string itself: NFC
normalization is applied to components only for validation, never to the
returned path. -/
theorem C4_validate_roundtrip :
    (∀ s, rustTrim s ≠ [] → (rustTrim s).head? ≠ some '~' →
        isAbsolute (rustTrim s) = false →
        (¬ ∃ c ∈ rustComponents (rustTrim s),
            c = RustComponent.curDir ∨ c = RustComponent.parentDir) →
        checkComponents (rustComponents (rustTrim s)) = .ok () →
        validate_structural_path s = .ok (rustTrim s))
    ∧ validate_structural_path "levels/{id}/map.dat".data
        = .ok "levels/{id}/map.dat".data := by
  refine ⟨fun s h1 h2 h3 h4 h5 => ?_, by decide⟩
  simp [validate_structural_path, h1, h2, h3, h4, h5]

/-- Witness for the amended C4 at a plain template. -/
theorem C4_validate_roundtrip_witness :
    validate_structural_path "saves/data".data = .ok (rustTrim "saves/data".data) :=
  C4_validate_roundtrip.1 "saves/data".data (by decide) (by decide) (by decide)
    (by decide) (by decide)

/-- C4 fails as stated: the one-component template `e` followed by U+0301
(combining acute) passes validation, but the returned path's textual form is
the un-normalized input, which differs from its NFC form `é`. -/
theorem C4_counterexample :
    validate_structural_path ['e', Char.ofNat 0x301] = .ok ['e', Char.ofNat 0x301]
    ∧ nfc (rustTrim ['e', Char.ofNat 0x301]) = ['é']
    ∧ nfc (rustTrim ['e', Char.ofNat 0x301]) ≠ rustTrim ['e', Char.ofNat 0x301] := by
  exact ⟨by decide, by decide, by decide⟩

end BevyPaths
